import Mathlib

/-!
Verification of the `coo` update scheduler (`src/coo/coo.py`).

Shallow embedding of the `Coo` class from `src/coo/coo.py`.

The repository ships `coo/coo.py` (present under `src/`) which imports
`zzz`, `tweet_template`, `parse_or_get`, `check_schedule_len` from
`coo.utils` and the exception classes from `coo.exceptions`; those two
modules are not part of the sources given, so their bodies are modelled
from the specification (each such definition carries a doc comment
starting with `Modelled from the spec:`).

Modelling conventions:
* Python values appearing in the public API (list elements, delay /
  interval / template arguments) are embedded as `PyAtom` (strings,
  ints, `None`) and `PyItem` (an atom or a tuple of atoms).
* Exceptions become `Except CooError`; each Python exception class is a
  `CooError` constructor.  `indexError` stands for Python's `IndexError`
  (e.g. `updates[0]` on an empty list), `runtimeError` for the
  `RuntimeError` that `loop.run_until_complete` raises on a closed
  asyncio event loop, `typeError` for Python `TypeError`.
* Observable side effects (sleeping, posting over the network through
  the Twitter API, printing in preview mode) are reified as `Event`
  values; a run returns the list of events it performs.
* Wall-clock time is a `Nat` (seconds).  The external datetime-parsing /
  zone-resolution capability (`pendulum` in the real code, declared an
  external collaborator by the specification) is a `TimeCap` parameter.
* Concurrency (`asyncio`): `Coo.schedule` creates one task per entry and
  `asyncio.wait` (default `ALL_COMPLETED`) drives all of them to
  completion, storing each task's exception instead of propagating it.
  A task body runs from its start to its first `await`; the wall-clock
  instant at which task `i` first runs is `nows[i]` — asyncio gives no
  guarantee that these instants coincide, only that they do not precede
  the start of the run and are nondecreasing in task-creation order.
  The run's result is the list of per-task outcomes, one per created
  task, each an `Except CooError (List Event)`.
-/

/-- An atomic Python value as used by the `coo` public API: a string,
an int, or `None`. -/
inductive PyAtom
  | str (s : String)
  | int (n : Nat)
  | none
deriving DecidableEq, Repr

/-- A top-level element of the `updates` argument of `Coo.schedule`:
either a tuple of atoms (the intended shape) or a bare atom (the
mis-shaped case the `isinstance(updates[0], tuple)` guard looks for). -/
inductive PyItem
  | atom (a : PyAtom)
  | tuple (fields : List PyAtom)
deriving DecidableEq, Repr

/-- Python truthiness (`if x:`) of an embedded atom: `None`, `0` and the
empty string are falsy, everything else truthy. -/
def PyAtom.truthy : PyAtom → Bool
  | .str s => !s.isEmpty
  | .int n => n != 0
  | .none => false

/-- Python `isinstance(x, str)` on an embedded atom. -/
def PyAtom.isStr : PyAtom → Bool
  | .str _ => true
  | _ => false

/-- Python `isinstance(x, tuple)` on an embedded item. -/
def PyItem.isTuple : PyItem → Bool
  | .tuple _ => true
  | _ => false

/-- The errors (Python exceptions) the embedded code can raise.
`scheduleError` and `tweetTypeError` are the two exception classes of
`coo.exceptions`; `timeParseError` and `unknownZoneError` are the
parser / zone failures of the external datetime capability;
`typeError`, `indexError`, `runtimeError` are the corresponding Python
built-in exceptions. -/
inductive CooError
  | scheduleError
  | tweetTypeError
  | timeParseError
  | unknownZoneError
  | typeError
  | indexError
  | runtimeError
deriving DecidableEq, Repr

/-- An observable side effect of a run: suspend for a number of seconds
(`time.sleep` / `asyncio.sleep`), post a text through the Twitter API
(`self.api.PostUpdate`, a network call), or print it on the console
(preview mode, no network call). -/
inductive Event
  | sleep (seconds : Nat)
  | post (text : PyAtom)
  | printv (text : PyAtom)
deriving DecidableEq, Repr

/-- The template placeholder token substituted by `tweet_template`. -/
def msgToken : String := "$message"

/-- Concrete strings used by the concrete runs below: a datetime string
that the sample capability resolves to the absolute instant 100, an
unparseable datetime string, message texts, and zone names. -/
def sT100 : String := "t100"

def sBoom : String := "boom"

def sM : String := "m"

def sA : String := "a"

def sB : String := "b"

def sX : String := "x"

def sHello : String := "hello"

def zUTC : String := "UTC"

def zLocal : String := "local"

/-- Modelled from the spec: the external datetime-parsing /
zone-resolution capability (`pendulum` in the real code; the spec
declares it an external collaborator, §4.1/§6).  `parse s zone now`
interprets the datetime string `s` in time zone `zone` (`Option.none`
meaning the process-local zone, the sentinel string `"local"` behaving
likewise) relative to the reference instant `now`, returning the
absolute resolved instant, `timeParseError` for an unparseable string,
or `unknownZoneError` for an unresolvable zone name. -/
structure TimeCap where
  parse : String → Option String → Nat → Except CooError Nat

/-- Modelled from the spec: `coo.utils.parse_or_get` (utils.py is not in
`src/`).  Per spec §4.1 and the `Coo.schedule` docstring: an int is
taken directly as a number of seconds; a datetime string is resolved
through the external capability against the reference instant `now` and
must come out strictly in the future, otherwise a `ScheduleError` (the
spec's `PastTimeError`) is raised; the result is the wait duration
`resolved - now`.  A `None` time spec is a Python `TypeError` inside the
parser. -/
def parse_or_get (cap : TimeCap) (t : PyAtom) (zone : Option String) (now : Nat) :
    Except CooError Nat :=
  match t with
  | .int n => .ok n
  | .str s =>
    match cap.parse s zone now with
    | .error e => .error e
    | .ok inst => if now < inst then .ok (inst - now) else .error .scheduleError
  | .none => .error .typeError

/-- Modelled from the spec: `coo.utils.zzz` (utils.py is not in
`src/`).  Per spec §4.3 it blocks the calling sequence for the resolved
duration: an int sleeps that many seconds, a string sleeps until the
instant it resolves to.  Returns the number of seconds slept; the
caller records the corresponding `Event.sleep`. -/
def zzz (cap : TimeCap) (t : PyAtom) (zone : Option String) (now : Nat) :
    Except CooError Nat :=
  match t with
  | .int n => .ok n
  | .str s => parse_or_get cap (.str s) zone now
  | .none => .error .typeError

/-- Modelled from the spec: `coo.utils.check_schedule_len` (utils.py is
not in `src/`).  Per spec §4.2 and the `Coo.schedule` docstring it
raises `ScheduleError` when the length of a schedule tuple is less or
greater than 3.  Python `len` of a string counts its characters, and
`len` of an int or `None` raises `TypeError`. -/
def check_schedule_len : PyItem → Except CooError Unit
  | .tuple fs => if fs.length = 3 then .ok () else .error .scheduleError
  | .atom (.str s) => if s.length = 3 then .ok () else .error .scheduleError
  | .atom _ => .error .typeError

/-- Modelled from the spec: `coo.utils.tweet_template` (utils.py is not
in `src/`).  Per spec §6 it substitutes the designated `"$message"`
placeholder of the template with the update text. -/
def tweet_template (update : String) (template : String) : String :=
  template.replace msgToken update

/-- Python `str(x)` on an embedded atom (the conversion
`string.Template.substitute` applies to a non-string message). -/
def atomStr : PyAtom → String
  | .str s => s
  | .int n => toString n
  | .none => "None"

/-- The mutable state of a `Coo` instance that the scheduling logic
reads or writes (`Coo.__init__`): the `preview` switch, the
`delay_time` / `interval_time` switches, and whether the asyncio event
loop created at construction has been closed.  The Twitter credentials
are irrelevant to the scheduling logic and are not modelled. -/
structure CooState where
  preview : Bool
  delay_time : Bool
  interval_time : Bool
  loopClosed : Bool
deriving DecidableEq, Repr

/-- Embedding of `Coo.__init__`: `delay_time = True`, `interval_time = False`, a
fresh (open) event loop. -/
def Coo.init (preview : Bool) : CooState :=
  ⟨preview, true, false, false⟩

/-- Embedding of `Coo.str_update`: if the template is truthy the update is rendered
through it, then the text is either printed (preview mode — the method
returns `None` without touching the network) or posted through the
Twitter API (`self.api.PostUpdate`, a network call). -/
def str_update (preview : Bool) (update : PyAtom) (template : PyAtom) : Event :=
  let u : PyAtom :=
    if template.truthy then .str (tweet_template (atomStr update) (atomStr template))
    else update
  if preview then .printv u else .post u

/-- Embedding of `Coo.delay`: `if delay and self.delay_time:` sleep via `zzz`
(resolving against `time_zone`) and set `delay_time = False`. -/
def Coo.delay (cap : TimeCap) (st : CooState) (d : PyAtom) (zone : String) (now : Nat) :
    Except CooError (CooState × List Event) :=
  if d.truthy && st.delay_time then
    match zzz cap d (some zone) now with
    | .error e => .error e
    | .ok w => .ok ({ st with delay_time := false }, [Event.sleep w])
  else .ok (st, [])

/-- Embedding of `Coo.interval`: `if interval and self.interval_time is True:` sleep
via `zzz` (called without a zone argument); then
`if self.interval_time is False: self.interval_time = True`. -/
def Coo.interval (cap : TimeCap) (st : CooState) (iv : PyAtom) (now : Nat) :
    Except CooError (CooState × List Event) :=
  match (if iv.truthy && st.interval_time then
          match zzz cap iv Option.none now with
          | .error e => .error e
          | .ok w => .ok [Event.sleep w]
        else .ok [] : Except CooError (List Event)) with
  | .error e => .error e
  | .ok evs =>
    .ok (if st.interval_time = false then { st with interval_time := true } else st, evs)

/-- The `for update in updates:` loop body of `Coo.tweet`: for each
update, `self.interval(interval)` then `self.str_update(update,
template)`. -/
def tweet_loop (cap : TimeCap) (st : CooState) (updates : List PyAtom)
    (iv tpl : PyAtom) (now : Nat) : Except CooError (CooState × List Event) :=
  match updates with
  | [] => .ok (st, [])
  | u :: us =>
    match Coo.interval cap st iv now with
    | .error e => .error e
    | .ok (st1, evI) =>
      match tweet_loop cap st1 us iv tpl now with
      | .error e => .error e
      | .ok (st2, evs) => .ok (st2, evI ++ str_update st1.preview u tpl :: evs)

/-- Embedding of `Coo.tweet`: the guard
`if not isinstance(updates, list) or not isinstance(updates[0], str)`
raises `TweetTypeError` (list-ness is enforced by the embedding's type;
evaluating `updates[0]` on an empty list raises `IndexError` before the
`isinstance` test of the element can run); then `self.delay(delay,
time_zone)` once, then the per-update loop. -/
def Coo.tweet (cap : TimeCap) (st : CooState) (updates : List PyAtom)
    (d iv tpl : PyAtom) (zone : String) (now : Nat) :
    Except CooError (CooState × List Event) :=
  match updates.head? with
  | Option.none => .error .indexError
  | some u =>
    if u.isStr = false then .error .tweetTypeError
    else
      match Coo.delay cap st d zone now with
      | .error e => .error e
      | .ok (st1, evD) =>
        match tweet_loop cap st1 updates iv tpl now with
        | .error e => .error e
        | .ok (st2, evL) => .ok (st2, evD ++ evL)

/-- Python indexing `msg[i]` on a schedule item: tuple indexing, string
indexing (a one-character string), `TypeError` on an int or `None`. -/
def pyIndex (m : PyItem) (i : Nat) : Except CooError PyAtom :=
  match m with
  | .tuple fs =>
    match fs.get? i with
    | some a => .ok a
    | Option.none => .error .indexError
  | .atom (.str s) =>
    match s.toList.get? i with
    | some c => .ok (.str (String.mk [c]))
    | Option.none => .error .indexError
  | .atom _ => .error .typeError

/-- Embedding of `Coo.custom_updates`: the body of one timer task.  It resolves
`msg[0]` through `parse_or_get` against `time_zone` — sampling the
reference instant `now` at the moment the task runs — then suspends for
the computed number of seconds, then `self.str_update(update=msg[2],
template=msg[1])`.  The result is the task's event list; a raised
exception is the task's stored outcome. -/
def custom_updates (cap : TimeCap) (preview : Bool) (msg : PyItem)
    (zone : String) (now : Nat) : Except CooError (List Event) :=
  match pyIndex msg 0 with
  | .error e => .error e
  | .ok t0 =>
    match parse_or_get cap t0 (some zone) now with
    | .error e => .error e
    | .ok seconds =>
      match pyIndex msg 2 with
      | .error e => .error e
      | .ok upd =>
        match pyIndex msg 1 with
        | .error e => .error e
        | .ok tpl => .ok [Event.sleep seconds, str_update preview upd tpl]

/-- The validation pass of `Coo.async_tasks`:
`for msg in set(custom_msgs): check_schedule_len(msg)`, checking each
distinct entry in turn. -/
def check_all : List PyItem → Except CooError Unit
  | [] => .ok ()
  | m :: ms =>
    match check_schedule_len m with
    | .error e => .error e
    | .ok _ => check_all ms

/-- Embedding of `Coo.async_tasks`: first the validation pass over the
deduplicated entries (`set(custom_msgs)`), then one task per element of
the *original* list `custom_msgs` is created and `asyncio.wait` drives
all of them to completion (`ALL_COMPLETED`), collecting each task's
terminal outcome without propagating its exception.  `nows[i]` is the
wall-clock instant at which task `i` first runs (see the module
docstring). -/
def async_tasks (cap : TimeCap) (preview : Bool) (custom_msgs : List PyItem)
    (zone : String) (nows : List Nat) :
    Except CooError (List (Except CooError (List Event))) :=
  match check_all custom_msgs.dedup with
  | .error e => .error e
  | .ok _ =>
    .ok ((custom_msgs.zip nows).map (fun p => custom_updates cap preview p.1 zone p.2))

/-- Embedding of `Coo.schedule`: the guard `if not isinstance(updates[0], tuple)`
raises `ScheduleError` (evaluating `updates[0]` on an empty list raises
`IndexError` first); then `self.loop.run_until_complete(...)` — which
raises `RuntimeError` if the loop was already closed, before any of the
coroutine body runs — and finally `self.loop.close()`, so a completed
run leaves the instance's loop closed. -/
def Coo.schedule (cap : TimeCap) (st : CooState) (updates : List PyItem)
    (zone : String) (nows : List Nat) :
    Except CooError (CooState × List (Except CooError (List Event))) :=
  match updates.head? with
  | Option.none => .error .indexError
  | some u =>
    if u.isTuple = false then .error .scheduleError
    else if st.loopClosed then .error .runtimeError
    else
      match async_tasks cap st.preview updates zone nows with
      | .error e => .error e
      | .ok outs => .ok ({ st with loopClosed := true }, outs)

/-- Number of network publish calls (`Event.post`) recorded across the
per-task outcomes of a run. -/
def countPosts (outs : List (Except CooError (List Event))) : Nat :=
  (outs.map (fun o =>
    match o with
    | .ok evs => (evs.filter (fun e =>
        match e with
        | .post _ => true
        | _ => false)).length
    | .error _ => 0)).sum

/-- Following the spec's words (§4.4 step 2), for comparison with the
code: a run in which every entry's time spec is resolved against one
shared reference instant `runStart`, captured once at the start of the
run and not re-sampled per entry. -/
def schedule_sharedNow (cap : TimeCap) (st : CooState) (updates : List PyItem)
    (zone : String) (runStart : Nat) :
    Except CooError (CooState × List (Except CooError (List Event))) :=
  Coo.schedule cap st updates zone (updates.map (fun _ => runStart))

instance {ε α : Type} [DecidableEq ε] [DecidableEq α] : DecidableEq (Except ε α) := fun a b =>
  match a, b with
  | .ok x, .ok y =>
    if h : x = y then .isTrue (h ▸ rfl) else .isFalse (fun hh => h (Except.ok.inj hh))
  | .error x, .error y =>
    if h : x = y then .isTrue (h ▸ rfl) else .isFalse (fun hh => h (Except.error.inj hh))
  | .ok _, .error _ => .isFalse (fun hh => Except.noConfusion hh)
  | .error _, .ok _ => .isFalse (fun hh => Except.noConfusion hh)

/-- A capability whose parser rejects every datetime string. -/
def cap0 : TimeCap := ⟨fun _ _ _ => .error .timeParseError⟩

/-- A capability that resolves the string `"t100"` to the absolute
instant `100` and rejects everything else. -/
def capC : TimeCap := ⟨fun s _ _ => if s = sT100 then .ok 100 else .error .timeParseError⟩

/-- A well-formed schedule entry: fires at instant `100`, no template,
message `"m"`. -/
def eT : PyItem := PyItem.tuple [.str sT100, .none, .str sM]

/-- A well-formed schedule entry with message `"a"`. -/
def eG : PyItem := PyItem.tuple [.str sT100, .none, .str sA]

/-- A schedule entry of correct arity whose time string does not
parse. -/
def eB : PyItem := PyItem.tuple [.str sBoom, .none, .str sB]

lemma check_all_ok_iff (l : List PyItem) :
    check_all l = .ok () ↔ ∀ m ∈ l, check_schedule_len m = .ok () := by
  induction l with
  | nil => simp [check_all]
  | cons m ms ih =>
    simp only [check_all]
    cases hc : check_schedule_len m with
    | error e => simp [hc, List.forall_mem_cons]
    | ok u => cases u; simp [hc, List.forall_mem_cons, ih]

lemma check_all_ok_or_scheduleError (l : List PyItem)
    (h : ∀ m ∈ l, check_schedule_len m = .ok () ∨
      check_schedule_len m = .error .scheduleError) :
    check_all l = .ok () ∨ check_all l = .error .scheduleError := by
  induction l with
  | nil => left; rfl
  | cons m ms ih =>
    rcases h m (List.mem_cons_self m ms) with hm | hm
    · simpa [check_all, hm] using ih (fun x hx => h x (List.mem_cons_of_mem m hx))
    · simp [check_all, hm]

lemma check_schedule_len_tuple (fs : List PyAtom) :
    check_schedule_len (PyItem.tuple fs) = .ok () ∨
      check_schedule_len (PyItem.tuple fs) = .error .scheduleError := by
  by_cases h : fs.length = 3 <;> simp [check_schedule_len, h]

lemma interval_ok_state (cap : TimeCap) (st : CooState) (iv : PyAtom) (now : Nat)
    (st1 : CooState) (evs : List Event)
    (h : Coo.interval cap st iv now = .ok (st1, evs)) :
    st1 = { st with interval_time := true } := by
  unfold Coo.interval at h
  split at h
  · exact Except.noConfusion h
  · cases h
    by_cases ht : st.interval_time = false
    · simp [ht]
    · simp only [ht, if_false]
      cases st
      simp_all

lemma tweet_loop_ok_state (cap : TimeCap) (us : List PyAtom) (st : CooState)
    (iv tpl : PyAtom) (now : Nat) (st2 : CooState) (evs : List Event)
    (h : tweet_loop cap st us iv tpl now = .ok (st2, evs)) :
    st2.delay_time = st.delay_time ∧ st2.preview = st.preview ∧
      st2.loopClosed = st.loopClosed := by
  induction us generalizing st evs with
  | nil =>
    unfold tweet_loop at h
    cases h
    exact ⟨rfl, rfl, rfl⟩
  | cons u us ih =>
    unfold tweet_loop at h
    split at h
    · exact Except.noConfusion h
    · rename_i st1 evI hI
      split at h
      · exact Except.noConfusion h
      · rename_i st2' evs' hL
        cases h
        have hst1 := interval_ok_state cap st iv now st1 evI hI
        have hrec := ih st1 evs' hL
        simp [hst1] at hrec
        exact hrec

/-- C9: In preview mode, `str_update` with the message `"hello"` and no
template records/prints exactly the literal text `"hello"` — the
resulting effect is `Event.printv` (the preview-mode console print,
which returns without invoking the Publisher and performs no network
call, as opposed to `Event.post`, the `api.PostUpdate` network
call). -/
theorem c9_preview_prints_literal :
    str_update true (PyAtom.str sHello) PyAtom.none =
      Event.printv (PyAtom.str sHello) := rfl

/-- C5: `Coo.schedule` raises `ScheduleError` when the first element of
`updates` is not tuple-shaped (first conjunct), and rejects the whole
submission with `ScheduleError` whenever any entry tuple has length
different from 3 — too short or too long — reaching no task creation
(second conjunct, stated for a batch whose elements are all tuples and
a still-open event loop). -/
theorem c5_arity_and_shape_rejection (cap : TimeCap) (st : CooState)
    (updates : List PyItem) (zone : String) (nows : List Nat)
    (a : PyAtom) (fs : List PyAtom) :
    (updates.head? = some (PyItem.atom a) →
      Coo.schedule cap st updates zone nows = .error .scheduleError) ∧
    (st.loopClosed = false → (∀ m ∈ updates, m.isTuple = true) →
      PyItem.tuple fs ∈ updates → fs.length ≠ 3 →
      Coo.schedule cap st updates zone nows = .error .scheduleError) := by
  constructor
  · intro hhead
    cases updates with
    | nil => cases hhead
    | cons m0 rest =>
      have hm0 : m0 = PyItem.atom a := by
        simpa using hhead
      subst hm0
      simp [Coo.schedule, PyItem.isTuple]
  · intro hopen hall hmem hlen3
    cases updates with
    | nil => cases hmem
    | cons m0 rest =>
      have h0 : m0.isTuple = true := hall m0 (List.mem_cons_self m0 rest)
      have herr : check_all (m0 :: rest).dedup = .error .scheduleError := by
        have hor : ∀ m ∈ (m0 :: rest).dedup,
            check_schedule_len m = .ok () ∨
              check_schedule_len m = .error .scheduleError := by
          intro m hm
          have hmm : m ∈ m0 :: rest := List.mem_dedup.mp hm
          have := hall m hmm
          cases m with
          | atom b => simp [PyItem.isTuple] at this
          | tuple gs => exact check_schedule_len_tuple gs
        rcases check_all_ok_or_scheduleError _ hor with hok | hko
        · exfalso
          have hbad := (check_all_ok_iff _).mp hok (PyItem.tuple fs)
            (List.mem_dedup.mpr hmem)
          simp [check_schedule_len, hlen3] at hbad
        · exact hko
      cases m0 with
      | atom b => simp [PyItem.isTuple] at h0
      | tuple gs =>
        simp [Coo.schedule, PyItem.isTuple, hopen, async_tasks, herr]

/-- Witness for C5: a batch whose first element is the bare string
`"x"` is rejected with `ScheduleError`, and a batch containing the
2-tuple `(1, None)` is rejected with `ScheduleError`. -/
theorem c5_witness :
    Coo.schedule cap0 (Coo.init false) [PyItem.atom (PyAtom.str sX)] zUTC [0] =
      .error .scheduleError ∧
    Coo.schedule cap0 (Coo.init false) [PyItem.tuple [PyAtom.int 1, PyAtom.none]]
        zUTC [0] = .error .scheduleError :=
  ⟨(c5_arity_and_shape_rejection cap0 (Coo.init false)
      [PyItem.atom (PyAtom.str sX)] zUTC [0] (PyAtom.str sX) []).1 rfl,
   (c5_arity_and_shape_rejection cap0 (Coo.init false)
      [PyItem.tuple [PyAtom.int 1, PyAtom.none]] zUTC [0] PyAtom.none
      [PyAtom.int 1, PyAtom.none]).2 rfl (by decide) (by decide) (by decide)⟩

/-- C10: a `Coo` instance supports at most one schedule run.  When a
`Coo.schedule` run returns normally the event loop created at
construction ends up closed, and every subsequent `Coo.schedule` call
on the resulting instance state — whatever its arguments — fails
instead of ever returning a (task-scheduling) result. -/
theorem c10_single_schedule_run (cap : TimeCap) (st : CooState)
    (updates : List PyItem) (zone : String) (nows : List Nat)
    (st' : CooState) (outs : List (Except CooError (List Event)))
    (hok : Coo.schedule cap st updates zone nows = .ok (st', outs)) :
    st'.loopClosed = true ∧
    ∀ (cap2 : TimeCap) (updates2 : List PyItem) (zone2 : String)
      (nows2 : List Nat) (res : CooState × List (Except CooError (List Event))),
      Coo.schedule cap2 st' updates2 zone2 nows2 ≠ .ok res := by
  have hclosed : st'.loopClosed = true := by
    unfold Coo.schedule at hok
    split at hok
    · exact Except.noConfusion hok
    · split at hok
      · exact Except.noConfusion hok
      · split at hok
        · exact Except.noConfusion hok
        · split at hok
          · exact Except.noConfusion hok
          · cases hok; rfl
  refine ⟨hclosed, ?_⟩
  intro cap2 updates2 zone2 nows2 res hok2
  unfold Coo.schedule at hok2
  rw [hclosed] at hok2
  split at hok2
  · exact Except.noConfusion hok2
  · split at hok2
    · exact Except.noConfusion hok2
    · simp at hok2

/-- Witness for C10: a successful one-entry run closes the loop, and
re-running `schedule` on the closed instance cannot return the result
it would otherwise produce. -/
theorem c10_witness :
    (⟨false, true, false, true⟩ : CooState).loopClosed = true ∧
    Coo.schedule capC (⟨false, true, false, true⟩ : CooState)
        [PyItem.tuple [PyAtom.int 5, PyAtom.none, PyAtom.str sM]] zUTC [0] ≠
      .ok (⟨false, true, false, true⟩,
        [.ok [Event.sleep 5, Event.post (PyAtom.str sM)]]) :=
  have h := c10_single_schedule_run capC (Coo.init false)
    [PyItem.tuple [PyAtom.int 5, PyAtom.none, PyAtom.str sM]] zUTC [0]
    ⟨false, true, false, true⟩ [.ok [Event.sleep 5, Event.post (PyAtom.str sM)]] rfl
  ⟨h.1, h.2 capC [PyItem.tuple [PyAtom.int 5, PyAtom.none, PyAtom.str sM]] zUTC [0] _⟩

/-- C7: in simple-list mode with a delay supplied (truthy) and not yet
consumed, a `Coo.tweet` run applies the delay wait exactly once, as the
very first event — before the first message's publish (the whole loop
trace, first publish included, comes after it) — the delay-consumed
flag (`delay_time = False`) is set in the resulting instance state, and
any further `Coo.delay` call on that instance state is a no-op, so the
delay never applies again. -/
theorem c7_delay_applied_once (cap : TimeCap) (st : CooState) (u : PyAtom)
    (us : List PyAtom) (d iv tpl : PyAtom) (zone : String) (now w : Nat)
    (st' : CooState) (tr : List Event)
    (hstr : u.isStr = true) (hd : d.truthy = true) (hdt : st.delay_time = true)
    (hw : zzz cap d (some zone) now = .ok w)
    (hok : Coo.tweet cap st (u :: us) d iv tpl zone now = .ok (st', tr)) :
    (∃ evL, tr = Event.sleep w :: evL ∧
       tweet_loop cap { st with delay_time := false } (u :: us) iv tpl now =
         .ok (st', evL)) ∧
    st'.delay_time = false ∧
    (∀ (cap2 : TimeCap) (d2 : PyAtom) (zone2 : String) (now2 : Nat),
       Coo.delay cap2 st' d2 zone2 now2 = .ok (st', [])) := by
  have hD : Coo.delay cap st d zone now =
      .ok ({ st with delay_time := false }, [Event.sleep w]) := by
    unfold Coo.delay
    rw [hd, hdt, hw]
    rfl
  unfold Coo.tweet at hok
  simp only [List.head?_cons] at hok
  rw [hstr] at hok
  simp only [Bool.true_eq_false, if_false, hD] at hok
  cases hL : tweet_loop cap { st with delay_time := false } (u :: us) iv tpl now with
  | error e => rw [hL] at hok; exact Except.noConfusion hok
  | ok p =>
    obtain ⟨st2, evL⟩ := p
    rw [hL] at hok
    cases hok
    have hpres := tweet_loop_ok_state cap (u :: us) { st with delay_time := false }
      iv tpl now st' evL hL
    refine ⟨⟨evL, rfl, rfl⟩, hpres.1, ?_⟩
    intro cap2 d2 zone2 now2
    unfold Coo.delay
    rw [hpres.1]
    simp

/-- Witness for C7: `tweet` on `["a", "b"]` with `delay = 60` sleeps 60
seconds before the first post, leaves `delay_time = False`, and a later
`delay` call on the instance is a no-op. -/
theorem c7_witness :
    (⟨false, false, true, false⟩ : CooState).delay_time = false ∧
    Coo.delay cap0 (⟨false, false, true, false⟩ : CooState) (PyAtom.int 60)
        zUTC 99 = .ok (⟨false, false, true, false⟩, []) :=
  have h := c7_delay_applied_once cap0 (Coo.init false) (PyAtom.str sA)
    [PyAtom.str sB] (PyAtom.int 60) PyAtom.none PyAtom.none zUTC 0 60
    ⟨false, false, true, false⟩
    [Event.sleep 60, Event.post (PyAtom.str sA), Event.post (PyAtom.str sB)]
    rfl rfl rfl rfl rfl
  ⟨h.2.1, h.2.2 cap0 (PyAtom.int 60) zUTC 99⟩

/-- C8: in simple-list mode, `Coo.interval` on the very first item
(interval state not yet armed) produces no wait and flips the state to
armed regardless of whether an interval value was supplied (first
conjunct); with the state armed and a truthy interval it waits the
resolved interval duration (second conjunct); consequently in the
update loop the first item's publish is not preceded by any
interval-induced wait (third conjunct), while every subsequent item's
publish is preceded by the interval wait (fourth conjunct). -/
theorem c8_interval_spacing (cap : TimeCap) (iv tpl u : PyAtom)
    (us : List PyAtom) (st : CooState) (now w : Nat) :
    (st.interval_time = false →
       Coo.interval cap st iv now = .ok ({ st with interval_time := true }, [])) ∧
    (st.interval_time = true → iv.truthy = true →
       zzz cap iv Option.none now = .ok w →
       Coo.interval cap st iv now = .ok (st, [Event.sleep w])) ∧
    (st.interval_time = false →
       tweet_loop cap st (u :: us) iv tpl now =
         (match tweet_loop cap { st with interval_time := true } us iv tpl now with
          | .error e => .error e
          | .ok (st2, evs) => .ok (st2, str_update st.preview u tpl :: evs))) ∧
    (st.interval_time = true → iv.truthy = true →
       zzz cap iv Option.none now = .ok w →
       tweet_loop cap st (u :: us) iv tpl now =
         (match tweet_loop cap st us iv tpl now with
          | .error e => .error e
          | .ok (st2, evs) =>
            .ok (st2, Event.sleep w :: str_update st.preview u tpl :: evs))) := by
  have hA : st.interval_time = false →
      Coo.interval cap st iv now = .ok ({ st with interval_time := true }, []) := by
    intro hF
    unfold Coo.interval
    rw [hF]
    simp
  have hB : st.interval_time = true → iv.truthy = true →
      zzz cap iv Option.none now = .ok w →
      Coo.interval cap st iv now = .ok (st, [Event.sleep w]) := by
    intro hT htr hz
    unfold Coo.interval
    rw [hT, htr, hz]
    simp
  have hcons : ∀ (st0 : CooState),
      tweet_loop cap st0 (u :: us) iv tpl now =
        match Coo.interval cap st0 iv now with
        | .error e => .error e
        | .ok (st1, evI) =>
          match tweet_loop cap st1 us iv tpl now with
          | .error e => .error e
          | .ok (st2, evs) => .ok (st2, evI ++ str_update st1.preview u tpl :: evs) :=
    fun _ => rfl
  refine ⟨hA, hB, ?_, ?_⟩
  · intro hF
    rw [hcons st, hA hF]
    cases hL : tweet_loop cap { st with interval_time := true } us iv tpl now with
    | error e => simp [hL]
    | ok p => obtain ⟨st2, evs⟩ := p; simp [hL]
  · intro hT htr hz
    rw [hcons st, hB hT htr hz]
    cases hL : tweet_loop cap st us iv tpl now with
    | error e => simp [hL]
    | ok p => obtain ⟨st2, evs⟩ := p; simp [hL]

/-- Witness for C8: with `interval = 30`, the unarmed state produces no
wait and arms, the armed state waits 30 seconds, and in the loop the
second item is preceded by a 30-second sleep. -/
theorem c8_witness :
    Coo.interval cap0 (Coo.init false) (PyAtom.int 30) 0 =
      .ok (⟨false, true, true, false⟩, []) ∧
    Coo.interval cap0 (⟨false, true, true, false⟩ : CooState) (PyAtom.int 30) 0 =
      .ok (⟨false, true, true, false⟩, [Event.sleep 30]) ∧
    tweet_loop cap0 (⟨false, true, true, false⟩ : CooState) [PyAtom.str sB]
        (PyAtom.int 30) PyAtom.none 0 =
      (match tweet_loop cap0 (⟨false, true, true, false⟩ : CooState) []
          (PyAtom.int 30) PyAtom.none 0 with
       | .error e => .error e
       | .ok (st2, evs) =>
         .ok (st2, Event.sleep 30 ::
           str_update (⟨false, true, true, false⟩ : CooState).preview
             (PyAtom.str sB) PyAtom.none :: evs)) :=
  ⟨(c8_interval_spacing cap0 (PyAtom.int 30) PyAtom.none (PyAtom.str sA) []
      (Coo.init false) 0 30).1 rfl,
   (c8_interval_spacing cap0 (PyAtom.int 30) PyAtom.none (PyAtom.str sA) []
      ⟨false, true, true, false⟩ 0 30).2.1 rfl rfl rfl,
   (c8_interval_spacing cap0 (PyAtom.int 30) PyAtom.none (PyAtom.str sB) []
      ⟨false, true, true, false⟩ 0 30).2.2.2 rfl rfl rfl⟩

lemma schedule_ok_unfold (cap : TimeCap) (st : CooState) (m0 : PyItem)
    (rest : List PyItem) (zone : String) (nows : List Nat)
    (htup : m0.isTuple = true) (hopen : st.loopClosed = false)
    (hcheck : check_all (m0 :: rest).dedup = .ok ()) :
    Coo.schedule cap st (m0 :: rest) zone nows =
      .ok ({ st with loopClosed := true },
        ((m0 :: rest).zip nows).map
          (fun p => custom_updates cap st.preview p.1 zone p.2)) := by
  simp [Coo.schedule, async_tasks, htup, hopen, hcheck]

lemma schedule_ok_inv (cap : TimeCap) (st : CooState) (updates : List PyItem)
    (zone : String) (nows : List Nat) (st' : CooState)
    (outs : List (Except CooError (List Event)))
    (hr : Coo.schedule cap st updates zone nows = .ok (st', outs)) :
    check_all updates.dedup = .ok () ∧
    st' = { st with loopClosed := true } ∧
    outs = (updates.zip nows).map
      (fun p => custom_updates cap st.preview p.1 zone p.2) := by
  unfold Coo.schedule at hr
  split at hr
  · exact Except.noConfusion hr
  · split at hr
    · exact Except.noConfusion hr
    · split at hr
      · exact Except.noConfusion hr
      · split at hr
        · exact Except.noConfusion hr
        · rename_i val heq
          cases hr
          unfold async_tasks at heq
          split at heq
          · exact Except.noConfusion heq
          · rename_i v heq2
            cases v
            cases heq
            exact ⟨heq2, rfl, rfl⟩

lemma get?_map_eq {α β : Type} (f : α → β) (l : List α) (i : Nat) :
    (l.map f).get? i = (l.get? i).map f := by
  induction l generalizing i with
  | nil => cases i <;> rfl
  | cons x xs ih =>
    cases i with
    | zero => rfl
    | succ j => exact ih j

lemma get?_zip_of_get? {α β : Type} (l1 : List α) (l2 : List β) (i : Nat)
    (a : α) (b : β) (h1 : l1.get? i = some a) (h2 : l2.get? i = some b) :
    (l1.zip l2).get? i = some (a, b) := by
  induction l1 generalizing l2 i with
  | nil => cases h1
  | cons x xs ih =>
    cases l2 with
    | nil => cases h2
    | cons y ys =>
      cases i with
      | zero => cases h1; cases h2; rfl
      | succ j => exact ih ys j h1 h2

/-- Counterexample to C1: a two-entry batch in which the second entry's
time string `"boom"` fails time resolution (`timeParseError`).  The
claim says such a submission is rejected as a whole before any timer
task launches, with no entry published — but the run is *admitted*
(`Except.ok`), the failing entry errors only inside its own task, and
the sibling entry still sleeps and publishes: the run performs one
publish call. -/
theorem c1_counterexample :
    parse_or_get capC (PyAtom.str sBoom) (some zUTC) 0 =
      .error .timeParseError ∧
    Coo.schedule capC (Coo.init false) [eG, eB] zUTC [0, 0] =
      .ok (⟨false, true, false, true⟩,
        [.ok [Event.sleep 100, Event.post (PyAtom.str sA)],
         .error .timeParseError]) ∧
    countPosts [.ok [Event.sleep 100, Event.post (PyAtom.str sA)],
      (.error .timeParseError : Except CooError (List Event))] = 1 :=
  ⟨rfl, rfl, rfl⟩

/-- C1 as amended: only the *arity* validation is fail-fast: if any
entry fails `check_schedule_len`, the whole submission is rejected
(never admitted) before any task launches (first conjunct).  But time
resolution is not part of admission: whenever every entry passes the
arity check, the submission is admitted unconditionally and one timer
task per entry is launched — each entry's outcome, publish or
time-resolution failure, is computed inside its own task, so a
resolution failure does not prevent sibling entries from publishing
(second conjunct). -/
theorem c1_admission_fail_fast (cap : TimeCap) (st : CooState)
    (updates : List PyItem) (zone : String) (nows : List Nat) (u : PyItem)
    (hne : updates.head? = some u) (htup : u.isTuple = true)
    (hopen : st.loopClosed = false) :
    ((∃ m ∈ updates, check_schedule_len m ≠ .ok ()) →
      ∀ r, Coo.schedule cap st updates zone nows ≠ .ok r) ∧
    ((∀ m ∈ updates, check_schedule_len m = .ok ()) →
      Coo.schedule cap st updates zone nows =
        .ok ({ st with loopClosed := true },
          (updates.zip nows).map
            (fun p => custom_updates cap st.preview p.1 zone p.2))) := by
  constructor
  · rintro ⟨m, hm, hbad⟩ r hr
    have hcheck := (schedule_ok_inv cap st updates zone nows r.1 r.2
      (by rw [hr])).1
    exact hbad ((check_all_ok_iff _).mp hcheck m (List.mem_dedup.mpr hm))
  · intro hall
    cases updates with
    | nil => cases hne
    | cons m0 rest =>
      have hm0 : m0 = u := by simpa using hne
      subst hm0
      exact schedule_ok_unfold cap st m0 rest zone nows htup hopen
        ((check_all_ok_iff _).mpr (fun m hm => hall m (List.mem_dedup.mp hm)))

/-- Witness for C1 (amended): a batch containing a 2-tuple is never
admitted, and the batch `[eG, eB]` (all arities correct, one entry
with an unresolvable time) is admitted with one task per entry. -/
theorem c1_witness :
    Coo.schedule capC (Coo.init false) [eG, PyItem.tuple [PyAtom.int 1, PyAtom.none]]
        zUTC [0, 0] ≠
      .ok (⟨false, true, false, true⟩, []) ∧
    Coo.schedule capC (Coo.init false) [eG, eB] zUTC [0, 0] =
      .ok (⟨false, true, false, true⟩,
        (([eG, eB] : List PyItem).zip [0, 0]).map
          (fun p => custom_updates capC (Coo.init false).preview p.1 zUTC p.2)) :=
  ⟨(c1_admission_fail_fast capC (Coo.init false)
      [eG, PyItem.tuple [PyAtom.int 1, PyAtom.none]] zUTC [0, 0] eG rfl rfl rfl).1
      ⟨PyItem.tuple [PyAtom.int 1, PyAtom.none], by decide, by decide⟩ _,
   (c1_admission_fail_fast capC (Coo.init false) [eG, eB] zUTC [0, 0] eG
      rfl rfl rfl).2 (by decide)⟩

/-- Counterexample to C2: submitting the identical well-formed tuple
`eT` twice yields a run with *two* timer tasks and *two* publish
calls — duplicates are not collapsed to a single timer task, contrary
to the claim that exactly one publish call results. -/
theorem c2_counterexample :
    Coo.schedule capC (Coo.init false) [eT, eT] zUTC [0, 0] =
      .ok (⟨false, true, false, true⟩,
        [.ok [Event.sleep 100, Event.post (PyAtom.str sM)],
         .ok [Event.sleep 100, Event.post (PyAtom.str sM)]]) ∧
    countPosts [.ok [Event.sleep 100, Event.post (PyAtom.str sM)],
      (.ok [Event.sleep 100, Event.post (PyAtom.str sM)] :
        Except CooError (List Event))] = 2 :=
  ⟨rfl, rfl⟩

/-- C2 as amended: deduplication applies only to the arity-validation
pass (`for msg in set(custom_msgs)`); task creation iterates over the
original list, so an admitted run launches one timer task per original
entry — a duplicated entry gets two tasks, each publishing on its
own. -/
theorem c2_dedup_only_validates (cap : TimeCap) (st : CooState) (e : PyItem)
    (rest : List PyItem) (zone : String) (n1 n2 : Nat) (ns : List Nat)
    (st' : CooState) (outs : List (Except CooError (List Event)))
    (hlen : ns.length = rest.length)
    (hok : Coo.schedule cap st (e :: e :: rest) zone (n1 :: n2 :: ns) =
      .ok (st', outs)) :
    outs.length = (e :: e :: rest).length ∧
    outs.get? 0 = some (custom_updates cap st.preview e zone n1) ∧
    outs.get? 1 = some (custom_updates cap st.preview e zone n2) := by
  obtain ⟨-, -, houts⟩ := schedule_ok_inv cap st (e :: e :: rest) zone
    (n1 :: n2 :: ns) st' outs hok
  subst houts
  refine ⟨?_, rfl, rfl⟩
  simp [List.length_zip, hlen]

/-- Witness for C2 (amended): the duplicated-entry run has two per-task
outcomes, positions 0 and 1 each holding their own copy of the
duplicated entry's task. -/
theorem c2_witness :
    ([Except.ok [Event.sleep 100, Event.post (PyAtom.str sM)],
      (Except.ok [Event.sleep 100, Event.post (PyAtom.str sM)] :
        Except CooError (List Event))].length = ([eT, eT] : List PyItem).length) ∧
    [Except.ok [Event.sleep 100, Event.post (PyAtom.str sM)],
      (Except.ok [Event.sleep 100, Event.post (PyAtom.str sM)] :
        Except CooError (List Event))].get? 0 =
      some (custom_updates capC (Coo.init false).preview eT zUTC 0) ∧
    [Except.ok [Event.sleep 100, Event.post (PyAtom.str sM)],
      (Except.ok [Event.sleep 100, Event.post (PyAtom.str sM)] :
        Except CooError (List Event))].get? 1 =
      some (custom_updates capC (Coo.init false).preview eT zUTC 0) :=
  c2_dedup_only_validates capC (Coo.init false) eT [] zUTC 0 0 []
    ⟨false, true, false, true⟩ _ rfl rfl

/-- C3: an admitted tuple-mode run returns only after every launched
timer task has completed: the result carries exactly one terminal
outcome per launched task (same length as the batch), and each task's
outcome is a function of its own entry and its own start instant
alone — so one task's failure neither cancels nor blocks any sibling
task, whose outcome is still present and unchanged. -/
theorem c3_run_waits_for_all_tasks (cap : TimeCap) (st : CooState)
    (updates : List PyItem) (zone : String) (nows : List Nat) (st' : CooState)
    (outs : List (Except CooError (List Event)))
    (hlen : nows.length = updates.length)
    (hok : Coo.schedule cap st updates zone nows = .ok (st', outs)) :
    outs.length = updates.length ∧
    ∀ (i : Nat) (u : PyItem) (n : Nat), updates.get? i = some u →
      nows.get? i = some n →
      outs.get? i = some (custom_updates cap st.preview u zone n) := by
  obtain ⟨-, -, houts⟩ := schedule_ok_inv cap st updates zone nows st' outs hok
  subst houts
  constructor
  · simp [List.length_zip, hlen]
  · intro i u n hu hn
    rw [get?_map_eq, get?_zip_of_get? updates nows i u n hu hn]
    rfl

/-- Witness for C3: in the run `[eG, eB]` the second task fails time
resolution, yet the run returns two outcomes and the first task's
outcome is exactly its own entry's computation. -/
theorem c3_witness :
    ([Except.ok [Event.sleep 100, Event.post (PyAtom.str sA)],
      (Except.error CooError.timeParseError :
        Except CooError (List Event))].length = ([eG, eB] : List PyItem).length) ∧
    [Except.ok [Event.sleep 100, Event.post (PyAtom.str sA)],
      (Except.error CooError.timeParseError :
        Except CooError (List Event))].get? 0 =
      some (custom_updates capC (Coo.init false).preview eG zUTC 0) :=
  have h := c3_run_waits_for_all_tasks capC (Coo.init false) [eG, eB] zUTC
    [0, 0] ⟨false, true, false, true⟩
    [Except.ok [Event.sleep 100, Event.post (PyAtom.str sA)],
     Except.error CooError.timeParseError] rfl rfl
  ⟨h.1, h.2 0 eG 0 rfl rfl⟩

/-- Counterexample to C6: the identical entry `eT` submitted twice in
one run.  Task 0 first runs at instant 0 and computes a 100-second
wait; task 1 first runs at instant 5 — `parse_or_get` samples its
reference "now" inside the task, when it runs — and computes a
95-second wait.  Under a single shared "now" captured once at the start
of the run (the spec-following `schedule_sharedNow`), both identical
entries would necessarily get identical waits; the code's run differs
from it. -/
theorem c6_counterexample :
    Coo.schedule capC (Coo.init false) [eT, eT] zUTC [0, 5] =
      .ok (⟨false, true, false, true⟩,
        [.ok [Event.sleep 100, Event.post (PyAtom.str sM)],
         .ok [Event.sleep 95, Event.post (PyAtom.str sM)]]) ∧
    schedule_sharedNow capC (Coo.init false) [eT, eT] zUTC 0 =
      .ok (⟨false, true, false, true⟩,
        [.ok [Event.sleep 100, Event.post (PyAtom.str sM)],
         .ok [Event.sleep 100, Event.post (PyAtom.str sM)]]) ∧
    Coo.schedule capC (Coo.init false) [eT, eT] zUTC [0, 5] ≠
      schedule_sharedNow capC (Coo.init false) [eT, eT] zUTC 0 :=
  ⟨rfl, rfl, by decide⟩

/-- C6 as amended: each entry's time spec is resolved against a "now"
sampled by `parse_or_get` inside the entry's own timer task when that
task first runs: in an admitted run the outcome at position `i` is the
task computation of entry `i` at instant `nows[i]` (first conjunct),
and for a well-formed entry that computation resolves the time spec at
exactly that per-task instant (second conjunct).  There is no single
shared reference instant captured once per run. -/
theorem c6_now_sampled_per_task (cap : TimeCap) (st : CooState)
    (updates : List PyItem) (zone : String) (nows : List Nat) (st' : CooState)
    (outs : List (Except CooError (List Event))) (t0 tplA mA : PyAtom) (nB : Nat)
    (hok : Coo.schedule cap st updates zone nows = .ok (st', outs)) :
    (∀ (i : Nat) (u : PyItem) (n : Nat), updates.get? i = some u →
      nows.get? i = some n →
      outs.get? i = some (custom_updates cap st.preview u zone n)) ∧
    (custom_updates cap st.preview (PyItem.tuple [t0, tplA, mA]) zone nB =
      match parse_or_get cap t0 (some zone) nB with
      | .error e => .error e
      | .ok seconds =>
        .ok [Event.sleep seconds, str_update st.preview mA tplA]) := by
  obtain ⟨-, -, houts⟩ := schedule_ok_inv cap st updates zone nows st' outs hok
  subst houts
  constructor
  · intro i u n hu hn
    rw [get?_map_eq, get?_zip_of_get? updates nows i u n hu hn]
    rfl
  · cases hp : parse_or_get cap t0 (some zone) nB with
    | error e => simp [custom_updates, pyIndex, hp]
    | ok seconds => simp [custom_updates, pyIndex, hp]

/-- Witness for C6 (amended): in the `[eT, eT]` run with task-start
instants 0 and 5, the second task's outcome is `eT`'s computation at
instant 5, which resolves `"t100"` at instant 5 (a 95-second wait). -/
theorem c6_witness :
    [Except.ok [Event.sleep 100, Event.post (PyAtom.str sM)],
      (Except.ok [Event.sleep 95, Event.post (PyAtom.str sM)] :
        Except CooError (List Event))].get? 1 =
      some (custom_updates capC (Coo.init false).preview eT zUTC 5) ∧
    custom_updates capC (Coo.init false).preview
        (PyItem.tuple [PyAtom.str sT100, PyAtom.none, PyAtom.str sM]) zUTC 5 =
      (match parse_or_get capC (PyAtom.str sT100) (some zUTC) 5 with
       | .error e => .error e
       | .ok seconds =>
         .ok [Event.sleep seconds,
           str_update (Coo.init false).preview (PyAtom.str sM) PyAtom.none]) :=
  have h := c6_now_sampled_per_task capC (Coo.init false) [eT, eT] zUTC [0, 5]
    ⟨false, true, false, true⟩
    [Except.ok [Event.sleep 100, Event.post (PyAtom.str sM)],
     Except.ok [Event.sleep 95, Event.post (PyAtom.str sM)]]
    (PyAtom.str sT100) PyAtom.none (PyAtom.str sM) 5 rfl
  ⟨h.1 1 eT 5 rfl rfl, h.2⟩

lemma parse_or_get_error_ne_tte (cap : TimeCap) (t : PyAtom) (z : Option String)
    (n : Nat) (e : CooError)
    (hcap : ∀ (s : String) (zo : Option String) (no : Nat) (e2 : CooError),
      cap.parse s zo no = .error e2 → e2 ≠ CooError.tweetTypeError)
    (h : parse_or_get cap t z n = .error e) : e ≠ CooError.tweetTypeError := by
  cases t with
  | int m => exact Except.noConfusion h
  | none => unfold parse_or_get at h; cases h; decide
  | str s =>
    simp only [parse_or_get] at h
    cases hp : cap.parse s z n with
    | error e2 => simp only [hp] at h; cases h; exact hcap s z n _ hp
    | ok inst =>
      simp only [hp] at h
      by_cases hlt : n < inst
      · rw [if_pos hlt] at h; exact Except.noConfusion h
      · rw [if_neg hlt] at h; cases h; decide

lemma zzz_error_ne_tte (cap : TimeCap) (t : PyAtom) (z : Option String) (n : Nat)
    (e : CooError)
    (hcap : ∀ (s : String) (zo : Option String) (no : Nat) (e2 : CooError),
      cap.parse s zo no = .error e2 → e2 ≠ CooError.tweetTypeError)
    (h : zzz cap t z n = .error e) : e ≠ CooError.tweetTypeError := by
  cases t with
  | int m => exact Except.noConfusion h
  | none => unfold zzz at h; cases h; decide
  | str s =>
    unfold zzz at h
    exact parse_or_get_error_ne_tte cap (.str s) z n e hcap h

lemma delay_error_ne_tte (cap : TimeCap) (st : CooState) (d : PyAtom)
    (zone : String) (now : Nat) (e : CooError)
    (hcap : ∀ (s : String) (zo : Option String) (no : Nat) (e2 : CooError),
      cap.parse s zo no = .error e2 → e2 ≠ CooError.tweetTypeError)
    (h : Coo.delay cap st d zone now = .error e) : e ≠ CooError.tweetTypeError := by
  unfold Coo.delay at h
  split at h
  · cases hz : zzz cap d (some zone) now with
    | error e2 => rw [hz] at h; cases h; exact zzz_error_ne_tte cap d _ now e hcap hz
    | ok w => rw [hz] at h; exact Except.noConfusion h
  · exact Except.noConfusion h

lemma interval_error_ne_tte (cap : TimeCap) (st : CooState) (iv : PyAtom)
    (now : Nat) (e : CooError)
    (hcap : ∀ (s : String) (zo : Option String) (no : Nat) (e2 : CooError),
      cap.parse s zo no = .error e2 → e2 ≠ CooError.tweetTypeError)
    (h : Coo.interval cap st iv now = .error e) : e ≠ CooError.tweetTypeError := by
  unfold Coo.interval at h
  split at h
  · rename_i e2 heq
    split at heq
    · cases hz : zzz cap iv Option.none now with
      | error e3 =>
        rw [hz] at heq
        cases heq
        cases h
        exact zzz_error_ne_tte cap iv Option.none now e hcap hz
      | ok w => rw [hz] at heq; exact Except.noConfusion heq
    · exact Except.noConfusion heq
  · exact Except.noConfusion h

lemma tweet_loop_error_ne_tte (cap : TimeCap) (us : List PyAtom) (st : CooState)
    (iv tpl : PyAtom) (now : Nat) (e : CooError)
    (hcap : ∀ (s : String) (zo : Option String) (no : Nat) (e2 : CooError),
      cap.parse s zo no = .error e2 → e2 ≠ CooError.tweetTypeError)
    (h : tweet_loop cap st us iv tpl now = .error e) :
    e ≠ CooError.tweetTypeError := by
  induction us generalizing st with
  | nil => exact Except.noConfusion h
  | cons u us ih =>
    unfold tweet_loop at h
    split at h
    · rename_i e2 hI
      cases h
      exact interval_error_ne_tte cap st iv now e hcap hI
    · rename_i st1 evI hI
      split at h
      · rename_i e2 hL
        cases h
        exact ih st1 hL
      · exact Except.noConfusion h

/-- Counterexample to C4: the list `["a", 5]` is non-empty but not all
strings, yet `Coo.tweet` does not fail with the input-type error — the
guard inspects only `updates[0]`, so the run is accepted and both
elements are posted; and the empty list fails with `IndexError` (from
evaluating `updates[0]`), not with the input-type error. -/
theorem c4_counterexample :
    Coo.tweet cap0 (Coo.init false) [PyAtom.str sA, PyAtom.int 5] PyAtom.none
        PyAtom.none PyAtom.none zLocal 0 =
      .ok (⟨false, true, true, false⟩,
        [Event.post (PyAtom.str sA), Event.post (PyAtom.int 5)]) ∧
    Coo.tweet cap0 (Coo.init false) [] PyAtom.none PyAtom.none PyAtom.none
        zLocal 0 = .error .indexError :=
  ⟨rfl, rfl⟩

/-- C4 as amended: `Coo.tweet` raises the input-type error
(`TweetTypeError`) exactly when the *first* element of `updates` is not
a string: an empty list raises `IndexError` instead (first conjunct), a
non-string first element raises `TweetTypeError` before any scheduling
work (second conjunct), and whenever the first element is a string the
run never fails with `TweetTypeError`, no matter what the remaining
elements are (third conjunct; stated for capabilities that do not
themselves throw `TweetTypeError`). -/
theorem c4_type_check_first_element_only (cap : TimeCap) (st : CooState)
    (updates : List PyAtom) (d iv tpl : PyAtom) (zone : String) (now : Nat)
    (u : PyAtom)
    (hcap : ∀ (s : String) (zo : Option String) (no : Nat) (e2 : CooError),
      cap.parse s zo no = .error e2 → e2 ≠ CooError.tweetTypeError) :
    (updates = [] →
      Coo.tweet cap st updates d iv tpl zone now = .error .indexError) ∧
    (updates.head? = some u → u.isStr = false →
      Coo.tweet cap st updates d iv tpl zone now = .error .tweetTypeError) ∧
    (updates.head? = some u → u.isStr = true →
      Coo.tweet cap st updates d iv tpl zone now ≠ .error .tweetTypeError) := by
  refine ⟨?_, ?_, ?_⟩
  · intro he; subst he; rfl
  · intro hh hs
    cases updates with
    | nil => cases hh
    | cons u0 us =>
      have hu0 : u0 = u := by simpa using hh
      subst hu0
      simp [Coo.tweet, hs]
  · intro hh hs hbad
    cases updates with
    | nil => cases hh
    | cons u0 us =>
      have hu0 : u0 = u := by simpa using hh
      subst hu0
      simp only [Coo.tweet, List.head?_cons] at hbad
      rw [hs] at hbad
      simp only [Bool.true_eq_false, if_false] at hbad
      cases hD : Coo.delay cap st d zone now with
      | error e =>
        simp only [hD] at hbad
        cases hbad
        exact delay_error_ne_tte cap st d zone now _ hcap hD rfl
      | ok p =>
        obtain ⟨st1, evD⟩ := p
        simp only [hD] at hbad
        cases hL : tweet_loop cap st1 (u0 :: us) iv tpl now with
        | error e =>
          simp only [hL] at hbad
          cases hbad
          exact tweet_loop_error_ne_tte cap (u0 :: us) st1 iv tpl now _ hcap hL rfl
        | ok q =>
          obtain ⟨st2, evL⟩ := q
          simp only [hL] at hbad
          exact Except.noConfusion hbad

/-- Witness for C4 (amended): the empty list gives `IndexError`, the
list `[7]` gives `TweetTypeError`, and the mixed list `["a", 5]` does
not give `TweetTypeError`. -/
theorem c4_witness :
    Coo.tweet cap0 (Coo.init false) [] PyAtom.none PyAtom.none PyAtom.none
        zLocal 0 = .error .indexError ∧
    Coo.tweet cap0 (Coo.init false) [PyAtom.int 7] PyAtom.none PyAtom.none
        PyAtom.none zLocal 0 = .error .tweetTypeError ∧
    Coo.tweet cap0 (Coo.init false) [PyAtom.str sA, PyAtom.int 5] PyAtom.none
        PyAtom.none PyAtom.none zLocal 0 ≠ .error .tweetTypeError :=
  have hcap0 : ∀ (s : String) (zo : Option String) (no : Nat) (e2 : CooError),
      cap0.parse s zo no = .error e2 → e2 ≠ CooError.tweetTypeError := by
    intro s zo no e2 hpe
    have he2 : e2 = CooError.timeParseError := by
      simpa [cap0] using hpe.symm
    subst he2
    decide
  ⟨(c4_type_check_first_element_only cap0 (Coo.init false) [] PyAtom.none
      PyAtom.none PyAtom.none zLocal 0 PyAtom.none hcap0).1 rfl,
   (c4_type_check_first_element_only cap0 (Coo.init false) [PyAtom.int 7]
      PyAtom.none PyAtom.none PyAtom.none zLocal 0 (PyAtom.int 7) hcap0).2.1
      rfl rfl,
   (c4_type_check_first_element_only cap0 (Coo.init false)
      [PyAtom.str sA, PyAtom.int 5] PyAtom.none PyAtom.none PyAtom.none
      zLocal 0 (PyAtom.str sA) hcap0).2.2 rfl rfl⟩
